import Mathlib

/-!
Verification development for the financial-text toolkit
(`rag-fin-study-gk`): a shallow embedding of the frontend API client,
configuration and application-state code found in the repository, together
with a model of the Term Standardization Engine described by the design
document (the engine's backend implementation is not part of the sources;
definitions marked `Modelled from the spec:` are built from the design
document's wording).
-/

/- ===================== JavaScript value model ===================== -/

/-- A JavaScript runtime value: `null`, `undefined`, booleans, numbers
(modelled as rationals), strings, and objects (ordered field lists). -/
inductive JSVal where
  | null : JSVal
  | undefined : JSVal
  | boolean : Bool → JSVal
  | number : ℚ → JSVal
  | str : String → JSVal
  | obj : List (String × JSVal) → JSVal

/-- JavaScript truthiness: `null`, `undefined`, `false`, `0`, and the empty
string are falsy; every object is truthy. -/
def JSVal.truthy : JSVal → Bool
  | .null => false
  | .undefined => false
  | .boolean b => b
  | .number q => !(q == 0)
  | .str s => !(s == "")
  | .obj _ => true

/-- First-match lookup of a key in an object's field list. -/
def lookupF (k : String) : List (String × JSVal) → Option JSVal
  | [] => none
  | p :: rest => if p.1 = k then some p.2 else lookupF k rest

/-- Property access `v[k]`: a missing key, or access on a primitive,
yields `undefined` (as for JavaScript property reads on non-objects). -/
def JSVal.getField (v : JSVal) (k : String) : JSVal :=
  match v with
  | .obj fs => match lookupF k fs with
    | some w => w
    | none => .undefined
  | _ => .undefined

/-- The enumerable own properties a value contributes when spread into an
object literal: an object contributes its fields, a string its indexed
characters, and other primitives contribute nothing. -/
def JSVal.spreadFields : JSVal → List (String × JSVal)
  | .obj fs => fs
  | .str s => s.toList.enum.map (fun p => (toString p.1, JSVal.str (String.mk [p.2])))
  | _ => []

/-- Object spread `\x7b...a, ...b\x7d`: fields of `a` with values overridden
by `b` where keys collide, followed by the fields of `b` with fresh keys. -/
def spreadObj (a b : List (String × JSVal)) : List (String × JSVal) :=
  a.map (fun p => match lookupF p.1 b with
    | some w => (p.1, w)
    | none => p) ++
  b.filter (fun p => (lookupF p.1 a).isNone)

/-- JavaScript `a || b`. -/
def jsOr (a b : JSVal) : JSVal := if a.truthy then a else b

/-- JavaScript `a && b`. -/
def jsAnd (a b : JSVal) : JSVal := if a.truthy then b else a

/-- JavaScript `String.prototype.trim`: strip whitespace from both ends. -/
def jsTrim (s : String) : String :=
  String.mk (((s.toList.dropWhile Char.isWhitespace).reverse.dropWhile
    Char.isWhitespace).reverse)

/- ===================== API configuration (src/frontend/src/config/api.js) ===================== -/

/-- `API_CONFIG.timeout`: 30-second request timeout, in milliseconds. -/
def API_CONFIG_timeout : Nat := 30000

/-- `API_CONFIG.retry.maxRetries`. -/
def API_CONFIG_maxRetries : Nat := 3

/-- `API_CONFIG.retry.retryDelay`, in milliseconds. -/
def API_CONFIG_retryDelay : Nat := 1000

/-- `API_CONFIG.retry.retryableStatusCodes`. -/
def API_CONFIG_retryableStatusCodes : List Nat := [408, 429, 500, 502, 503, 504]

/-- `API_CONFIG.models.defaultLLM`. -/
def defaultLLM : String := "glm-4-plus"

/-- `API_CONFIG.models.defaultEmbedding`. -/
def defaultEmbedding : String := "embedding-3"

/-- `API_CONFIG.endpoints`. -/
def endpoints_ner : String := "/api/ner"

def endpoints_std : String := "/api/std"

def endpoints_abbr : String := "/api/abbr"

def endpoints_corr : String := "/api/corr"

def endpoints_gen : String := "/api/gen"

/-- `API_CONFIG.errorMessages` (only these four keys are defined). -/
def API_CONFIG_errorMessages : JSVal :=
  .obj [("networkError", .str "网络连接失败，请检查网络设置"),
        ("timeout", .str "请求超时，请稍后重试"),
        ("serverError", .str "服务器错误，请稍后重试"),
        ("unknownError", .str "发生未知错误，请稍后重试")]

/- ===================== API client (src/frontend/src/api/client.js) ===================== -/

/-- The request interceptor's transformation of `config.data`: when the
payload is truthy, spread it and fill `model_name`, `temperature`, `top_p`
and `max_tokens` with `x || default`; otherwise leave it untouched. -/
def onRequest (data : JSVal) : JSVal :=
  if data.truthy then
    .obj (spreadObj data.spreadFields
      [("model_name", jsOr (data.getField "model_name") (.str defaultLLM)),
       ("temperature", jsOr (data.getField "temperature") (.number (7 / 10))),
       ("top_p", jsOr (data.getField "top_p") (.number (9 / 10))),
       ("max_tokens", jsOr (data.getField "max_tokens") (.number 2000))])
  else data

/-- An axios response as seen by the fulfilled response interceptor. -/
structure AxiosResponse where
  status : Nat
  data : JSVal

/-- The fulfilled response interceptor: when `response.data &&
response.data.error` is truthy the promise is rejected with that error;
otherwise it resolves to `response.data`, stripping the transport
envelope. -/
def onResponseFulfilled (response : AxiosResponse) : Except JSVal JSVal :=
  if (jsAnd response.data (response.data.getField "error")).truthy
  then .error (response.data.getField "error")
  else .ok response.data

/-- An axios error as seen by the rejected response interceptor:
`response` carries the HTTP status when the server answered, `request`
records that a request went out with no response (timeouts, network
failures), and `message` is the underlying error message. -/
structure AxiosError where
  response : Option Nat
  request : Bool
  message : String

/-- The status-code branch of the rejected response interceptor:
`API_CONFIG.errorMessages.<key> || '<fallback>'` per the `switch`. -/
def statusErrorMessage (status : Nat) : JSVal :=
  if status = 400 then
    jsOr (API_CONFIG_errorMessages.getField "badRequest") (.str "请求参数错误，请检查输入")
  else if status = 401 then
    jsOr (API_CONFIG_errorMessages.getField "unauthorized") (.str "未授权，请重新登录")
  else if status = 403 then
    jsOr (API_CONFIG_errorMessages.getField "forbidden") (.str "拒绝访问，请检查权限")
  else if status = 404 then
    jsOr (API_CONFIG_errorMessages.getField "notFound") (.str "请求的资源不存在")
  else if status = 500 then
    jsOr (API_CONFIG_errorMessages.getField "serverError") (.str "服务器内部错误，请稍后重试")
  else
    jsOr (API_CONFIG_errorMessages.getField "unknownError") (.str "未知错误，请稍后重试")

/-- The rejected response interceptor, reduced to the message the promise
is rejected with: a served error status maps through `statusErrorMessage`,
a request with no response maps to the configured network-error message,
and a request-setup error propagates its own message. -/
def onAxiosError (e : AxiosError) : JSVal :=
  match e.response with
  | some status => statusErrorMessage status
  | none =>
    if e.request then API_CONFIG_errorMessages.getField "networkError"
    else .str e.message

/-- A request issued through the axios client instance: every such request
carries the client's configured timeout and interceptor-adjusted data. -/
structure ServiceRequest where
  url : String
  timeout : Nat
  data : JSVal

/-- `client.post(endpoint, data)`: the client instance is created with
`timeout: API_CONFIG.timeout`, and the request interceptor transforms the
payload. -/
def clientPost (endpoint : String) (data : JSVal) : ServiceRequest :=
  { url := endpoint, timeout := API_CONFIG_timeout, data := onRequest data }

/- ===================== Services (src/frontend/src/api/services.js) ===================== -/

/-- `nerService.recognize(text, options)`. -/
def nerService_recognize (text : String) (options : JSVal) : ServiceRequest :=
  clientPost endpoints_ner (.obj [("text", .str text), ("options", options)])

/-- `stdService.standardize(text, options)`. -/
def stdService_standardize (text : String) (options : JSVal) : ServiceRequest :=
  clientPost endpoints_std (.obj [("text", .str text), ("options", options)])

/-- `abbrService.expand(text, options)`. -/
def abbrService_expand (text : String) (options : JSVal) : ServiceRequest :=
  clientPost endpoints_abbr (.obj [("text", .str text), ("options", options)])

/-- `corrService.correct(text, options)`. -/
def corrService_correct (text : String) (options : JSVal) : ServiceRequest :=
  clientPost endpoints_corr (.obj [("text", .str text), ("options", options)])

/-- `genService.generate(text, options)`. -/
def genService_generate (text : String) (options : JSVal) : ServiceRequest :=
  clientPost endpoints_gen (.obj [("text", .str text), ("options", options)])

/- ===================== Application state (src/frontend/src/context/AppContext.js) ===================== -/

/-- The application state held by `AppContext`. -/
structure AppState where
  modelOptions : List (String × JSVal)
  loading : JSVal
  error : JSVal

/-- A dispatched action. -/
structure AppAction where
  type : String
  payload : JSVal

/-- The context's `initialState`. -/
def initialState : AppState :=
  { modelOptions := [("model", .str "glm-4-plus"),
                     ("embeddingModel", .str "embedding-3"),
                     ("dbName", .str "financial_terms_zhipu")],
    loading := .boolean false,
    error := .null }

/-- The context reducer: `SET_MODEL_OPTIONS` merges the payload into
`modelOptions` by object spread, `SET_LOADING` and `SET_ERROR` overwrite
their field, `CLEAR_ERROR` nulls the error, and any other action type
returns the state unchanged. -/
def reducer (state : AppState) (action : AppAction) : AppState :=
  if action.type = "SET_MODEL_OPTIONS" then
    { state with
      modelOptions := spreadObj state.modelOptions action.payload.spreadFields }
  else if action.type = "SET_LOADING" then
    { state with loading := action.payload }
  else if action.type = "SET_ERROR" then
    { state with error := action.payload }
  else if action.type = "CLEAR_ERROR" then
    { state with error := .null }
  else state

/-- `ModelOptionsPanel.handleChange`: an input change dispatches
`setModelOptions(\x7b[name]: value\x7d)`. -/
def handleChange (name : String) (value : JSVal) : AppAction :=
  { type := "SET_MODEL_OPTIONS", payload := .obj [(name, value)] }

/-- The option keys enumerated by the initial configuration object. -/
def recognizedOptionKeys : List String := ["model", "embeddingModel", "dbName"]

/-- The keys of an object's field list. -/
def keysOf (fs : List (String × JSVal)) : List String := fs.map Prod.fst

/-- `NERPage.handleSubmit`: blank (trim-empty) input returns early after a
toast — no terms-API call is made; otherwise `extractTerms(input,
modelOptions)` is invoked, modelled as its argument pair. -/
def handleSubmitNER (input : String) (options : JSVal) : Option (String × JSVal) :=
  if jsTrim input = "" then none
  else some (input, options)


/- ===================== Term Standardization Engine (design document §3-§7) ===================== -/

/-- Modelled from the spec: the error taxonomy of §7 for the Term
Standardization Engine, whose backend implementation is not among the
sources. -/
inductive StdError where
  | EmptyInput : StdError
  | InvalidCategory : StdError
  | DimensionMismatch : StdError
  | EmbeddingUnavailable : StdError
  | NotFound : StdError
deriving DecidableEq

/-- Modelled from the spec: only `EmbeddingUnavailable` is transient and
retryable; `EmptyInput`, `InvalidCategory` and `DimensionMismatch` are
validation errors, surfaced immediately (§7). -/
def StdError.isTransient : StdError → Bool
  | .EmbeddingUnavailable => true
  | _ => false

/-- Modelled from the spec: a validation error per §7. -/
def StdError.isValidation : StdError → Bool
  | .EmptyInput => true
  | .InvalidCategory => true
  | .DimensionMismatch => true
  | _ => false

/-- Modelled from the spec: the canonical `Term` of §3 (the missing
backend's metadata row). -/
structure Term where
  term_id : Nat
  term_name : String
  category : String
  definition : String
deriving DecidableEq

/-- Modelled from the spec: the ranking order of §4.2/§4.5 — descending
similarity score, ties broken by ascending `term_id`. -/
def rankRel (a b : Term × ℚ) : Prop :=
  b.2 < a.2 ∨ (a.2 = b.2 ∧ a.1.term_id ≤ b.1.term_id)

instance : DecidableRel rankRel := fun a b => by unfold rankRel; infer_instance

/-- The strict part of the ranking order: strictly larger score, or equal
score and strictly smaller `term_id`. -/
def rankLT (a b : Term × ℚ) : Prop :=
  b.2 < a.2 ∨ (a.2 = b.2 ∧ a.1.term_id < b.1.term_id)

instance : IsTotal (Term × ℚ) rankRel where
  total a b := by
    unfold rankRel
    rcases lt_trichotomy a.2 b.2 with h | h | h
    · exact Or.inr (Or.inl h)
    · rcases Nat.le_total a.1.term_id b.1.term_id with h' | h'
      · exact Or.inl (Or.inr ⟨h, h'⟩)
      · exact Or.inr (Or.inr ⟨h.symm, h'⟩)
    · exact Or.inl (Or.inl h)

instance : IsTrans (Term × ℚ) rankRel where
  trans a b c hab hbc := by
    unfold rankRel at *
    rcases hab with h1 | ⟨h1, h1'⟩
    · rcases hbc with h2 | ⟨h2, _⟩
      · exact Or.inl (h2.trans h1)
      · exact Or.inl (h2 ▸ h1)
    · rcases hbc with h2 | ⟨h2, h2'⟩
      · exact Or.inl (h1 ▸ h2)
      · exact Or.inr ⟨h1.trans h2, h1'.trans h2'⟩

instance : IsAntisymm (Term × ℚ) rankLT where
  antisymm a b hab hba := by
    unfold rankLT at *
    rcases hab with h1 | ⟨h1, h1'⟩
    · rcases hba with h2 | ⟨h2, _⟩
      · exact absurd (h1.trans h2) (lt_irrefl _)
      · exact absurd (h2 ▸ h1) (lt_irrefl _)
    · rcases hba with h2 | ⟨h2, h2'⟩
      · exact absurd (h1 ▸ h2) (lt_irrefl _)
      · exact absurd (h1'.trans h2') (lt_irrefl _)

/-- Modelled from the spec: `VectorIndex.search` joined with the metadata
lookup (§4.2, §4.5) over the active entries (term, vector) of the missing
backend's index. The similarity metric is a parameter (the spec fixes
cosine similarity; the ordering properties proved below hold for any fixed
metric). Scores every active entry, orders by descending score with ties
broken by ascending `term_id`, and returns the first `k`. -/
def searchIndex (sim : List ℚ → List ℚ → ℚ) (entries : List (Term × List ℚ))
    (q : List ℚ) (k : Nat) : List (Term × ℚ) :=
  (List.insertionSort rankRel (entries.map (fun e => (e.1, sim q e.2)))).take k

/-- Modelled from the spec: the bounded internal retry of §5/§7 around
`EmbeddingProvider.embed`. `embed n` is the outcome of the `n`-th attempt;
`fuel` is the number of retries still allowed. Returns the surfaced
outcome together with the number of provider requests issued: a success
or a validation error surfaces at once, a transient failure is retried
while fuel remains. -/
def retryEmbed (embed : Nat → Except StdError (List ℚ)) (attempt : Nat) :
    Nat → Except StdError (List ℚ) × Nat
  | 0 => (embed attempt, 1)
  | fuel + 1 =>
    match embed attempt with
    | .ok v => (.ok v, 1)
    | .error e =>
      if e.isTransient then
        let r := retryEmbed embed (attempt + 1) fuel
        (r.1, r.2 + 1)
      else (.error e, 1)

/-- Modelled from the spec: `TermStandardizer.standardize` (§4.5) with an
instrumented provider-request count. Steps: reject empty/whitespace-only
input with `EmptyInput` issuing no provider request; embed the text with
the bounded retry (at most `API_CONFIG.retry.maxRetries` retries); search
the index for the `topK` nearest candidates; filter out candidates whose
score is below `similarityThreshold`; return the remainder in rank order.
The second component is the number of embedding-provider requests
issued. -/
def standardizeRun (embed : Nat → Except StdError (List ℚ))
    (sim : List ℚ → List ℚ → ℚ) (entries : List (Term × List ℚ))
    (text : String) (topK : Nat) (similarityThreshold : ℚ) :
    Except StdError (List (Term × ℚ)) × Nat :=
  if jsTrim text = "" then (.error .EmptyInput, 0)
  else
    match retryEmbed embed 0 API_CONFIG_maxRetries with
    | (.error e, n) => (.error e, n)
    | (.ok v, n) =>
      (.ok ((searchIndex sim entries v topK).filter
        (fun c => decide (similarityThreshold ≤ c.2))), n)

/-- Modelled from the spec: the result of `standardize`, without the
instrumentation. -/
def standardize (embed : Nat → Except StdError (List ℚ))
    (sim : List ℚ → List ℚ → ℚ) (entries : List (Term × List ℚ))
    (text : String) (topK : Nat) (similarityThreshold : ℚ) :
    Except StdError (List (Term × ℚ)) :=
  (standardizeRun embed sim entries text topK similarityThreshold).1

/-- Modelled from the spec: batch standardization (§4.5, §7) — one result
per input, in input order, each item standardized independently so that a
failure on one item is recorded as that item's error while the others
keep their normal ranked results. `embed` gives each text's provider
outcome. -/
def batchStandardize (embed : String → Except StdError (List ℚ))
    (sim : List ℚ → List ℚ → ℚ) (entries : List (Term × List ℚ))
    (texts : List String) (topK : Nat) (similarityThreshold : ℚ) :
    List (Except StdError (List (Term × ℚ))) :=
  texts.map (fun t =>
    standardize (fun _ => embed t) sim entries t topK similarityThreshold)

/-- Modelled from the spec: the outcome of a provider/network call under a
bounded timeout (§5) — either the response arrives within the timeout, or
the call fails at the timeout instead of hanging. -/
inductive ReqOutcome where
  | completed : Nat → ReqOutcome
  | timedOut : Nat → ReqOutcome
deriving DecidableEq

/-- Modelled from the spec: a blocking call with timeout `timeoutMs`
against a response that arrives at `arrival` (`none` = never). -/
def requestWithTimeout (timeoutMs : Nat) (arrival : Option Nat) : ReqOutcome :=
  match arrival with
  | some a => if a ≤ timeoutMs then .completed a else .timedOut timeoutMs
  | none => .timedOut timeoutMs

/-- The instant at which a call's outcome is delivered. -/
def ReqOutcome.time : ReqOutcome → Nat
  | .completed t => t
  | .timedOut t => t

/- ===================== Concrete evaluation data ===================== -/

/-- A constant similarity metric, for concrete evaluations. -/
def simConst : List ℚ → List ℚ → ℚ := fun _ _ => 1

/-- A metric that reads the score stored at the head of the entry's
vector, for concrete evaluations. -/
def simHead : List ℚ → List ℚ → ℚ := fun _ v => v.headD 0

/-- Sample vocabulary entry "股票" (STOCK). -/
def termStock : Term :=
  { term_id := 1, term_name := "股票", category := "STOCK", definition := "" }

/-- Sample vocabulary entry "债券" (BOND). -/
def termBond : Term :=
  { term_id := 2, term_name := "债券", category := "BOND", definition := "" }

/-- A sample two-term index. -/
def entriesTwo : List (Term × List ℚ) := [(termStock, [3]), (termBond, [1])]

/-- A provider that fails transiently exactly on the text "乙". -/
def embedFailsOn2 : String → Except StdError (List ℚ) :=
  fun t => if t = "乙" then .error .EmbeddingUnavailable else .ok [1]

/- ===================== Helper lemmas ===================== -/

theorem lookupF_append (k : String) (l₁ l₂ : List (String × JSVal)) :
    lookupF k (l₁ ++ l₂) = match lookupF k l₁ with
      | some v => some v
      | none => lookupF k l₂ := by
  induction l₁ with
  | nil => simp [lookupF]
  | cons p rest ih =>
    by_cases h : p.1 = k
    · simp [lookupF, h]
    · simp [lookupF, h, ih]

theorem lookupF_mapOverride (k : String) (a b : List (String × JSVal)) :
    lookupF k (a.map (fun p => match lookupF p.1 b with
      | some w => (p.1, w)
      | none => p)) =
    match lookupF k a with
    | some v => some (match lookupF k b with
      | some w => w
      | none => v)
    | none => none := by
  induction a with
  | nil => simp [lookupF]
  | cons p rest ih =>
    by_cases h : p.1 = k
    · subst h
      rcases hb : lookupF p.1 b with _ | w
      · simp [lookupF, hb]
      · simp [lookupF, hb]
    · have h1 : (match lookupF p.1 b with
          | some w => (p.1, w)
          | none => p).1 = p.1 := by
        rcases lookupF p.1 b with _ | w <;> rfl
      simp [lookupF, h1, h, ih]

theorem lookupF_filterNotIn (k : String) (a b : List (String × JSVal)) :
    lookupF k (b.filter (fun q => (lookupF q.1 a).isNone)) =
    if (lookupF k a).isNone then lookupF k b else none := by
  induction b with
  | nil => cases h : (lookupF k a).isNone <;> simp [lookupF, h]
  | cons q rest ih =>
    by_cases hq : q.1 = k
    · subst hq
      cases h : (lookupF q.1 a).isNone
      · simp [List.filter_cons, h, ih, lookupF]
      · simp [List.filter_cons, h, lookupF]
    · cases hpred : (lookupF q.1 a).isNone
      · simp [List.filter_cons, hpred, ih, lookupF, hq]
      · simp [List.filter_cons, hpred, lookupF, hq, ih]

theorem lookupF_spreadObj (k : String) (a b : List (String × JSVal)) :
    lookupF k (spreadObj a b) = match lookupF k b with
      | some w => some w
      | none => lookupF k a := by
  unfold spreadObj
  rw [lookupF_append, lookupF_mapOverride, lookupF_filterNotIn]
  rcases ha : lookupF k a with _ | v <;> rcases hb : lookupF k b with _ | w <;>
    simp [ha, hb]

theorem keysOf_spreadObj_sub (a b : List (String × JSVal)) (k : String)
    (h : k ∈ keysOf (spreadObj a b)) : k ∈ keysOf a ∨ k ∈ keysOf b := by
  unfold spreadObj keysOf at *
  rw [List.map_append, List.mem_append] at h
  rcases h with h | h
  · left
    obtain ⟨p, hp, hk⟩ := List.mem_map.mp h
    obtain ⟨q, hq, hpq⟩ := List.mem_map.mp hp
    rw [← hpq] at hk
    have h2 : q.1 = k := by
      rcases hb : lookupF q.1 b with _ | w <;> simp [hb] at hk <;> exact hk
    exact h2 ▸ List.mem_map_of_mem _ hq
  · right
    obtain ⟨p, hp, hk⟩ := List.mem_map.mp h
    exact hk ▸ List.mem_map_of_mem _ (List.mem_of_mem_filter hp)

theorem rankRel_score_le {a b : Term × ℚ} (h : rankRel a b) : b.2 ≤ a.2 := by
  rcases h with h | ⟨h, _⟩
  · exact le_of_lt h
  · exact le_of_eq h.symm

theorem rankRel_ne_imp_lt {a b : Term × ℚ} (h : rankRel a b)
    (hne : a.1.term_id ≠ b.1.term_id) : rankLT a b := by
  rcases h with h | ⟨h1, h2⟩
  · exact Or.inl h
  · exact Or.inr ⟨h1, lt_of_le_of_ne h2 hne⟩

theorem searchIndex_sorted (sim : List ℚ → List ℚ → ℚ)
    (entries : List (Term × List ℚ)) (q : List ℚ) (k : Nat) :
    (searchIndex sim entries q k).Pairwise rankRel :=
  List.Pairwise.take (List.sorted_insertionSort rankRel _)

theorem searchIndex_ids_distinct (sim : List ℚ → List ℚ → ℚ)
    (entries : List (Term × List ℚ)) (q : List ℚ) (k : Nat)
    (hnd : (entries.map (fun e => e.1.term_id)).Nodup) :
    (searchIndex sim entries q k).Pairwise
      (fun a b => a.1.term_id ≠ b.1.term_id) := by
  have h1 : ((entries.map (fun e => (e.1, sim q e.2))).map
      (fun a => a.1.term_id)) = entries.map (fun e => e.1.term_id) := by
    rw [List.map_map]
    rfl
  have h2 : ((entries.map (fun e => (e.1, sim q e.2))).map
      (fun a => a.1.term_id)).Nodup := h1 ▸ hnd
  have h3 : (entries.map (fun e => (e.1, sim q e.2))).Pairwise
      (fun a b => a.1.term_id ≠ b.1.term_id) := List.pairwise_map.mp h2
  have h4 := (List.Perm.pairwise_iff (fun h => Ne.symm h)
    (List.perm_insertionSort rankRel
      (entries.map (fun e => (e.1, sim q e.2))))).mpr h3
  exact List.Pairwise.take h4

theorem retryEmbed_count (embed : Nat → Except StdError (List ℚ)) :
    ∀ (fuel attempt : Nat), (retryEmbed embed attempt fuel).2 ≤ fuel + 1 := by
  intro fuel
  induction fuel with
  | zero => intro attempt; simp [retryEmbed]
  | succ fuel ih =>
    intro attempt
    cases he : embed attempt with
    | ok v => simp [retryEmbed, he]
    | error e =>
      cases het : e.isTransient
      · simp [retryEmbed, he, het]
      · simp only [retryEmbed, he, het]
        exact Nat.succ_le_succ (ih (attempt + 1))

theorem validation_not_transient {e : StdError} (h : e.isValidation = true) :
    e.isTransient = false := by
  cases e <;> simp [StdError.isValidation, StdError.isTransient] at *

theorem retryEmbed_validation (embed : Nat → Except StdError (List ℚ))
    (attempt fuel : Nat) (e : StdError) (he : embed attempt = .error e)
    (hv : e.isValidation = true) :
    retryEmbed embed attempt fuel = (.error e, 1) := by
  have ht : e.isTransient = false := validation_not_transient hv
  cases fuel
  · simp [retryEmbed, he]
  · simp [retryEmbed, he, ht]

theorem getField_truthy_imp (v : JSVal) (k : String)
    (h : (v.getField k).truthy = true) : v.truthy = true := by
  cases v <;> simp [JSVal.getField, JSVal.truthy] at *

theorem onRequest_getField (data : JSVal) (h : data.truthy = true) :
    (onRequest data).getField "model_name" =
      jsOr (data.getField "model_name") (.str defaultLLM) ∧
    (onRequest data).getField "temperature" =
      jsOr (data.getField "temperature") (.number (7 / 10)) ∧
    (onRequest data).getField "top_p" =
      jsOr (data.getField "top_p") (.number (9 / 10)) ∧
    (onRequest data).getField "max_tokens" =
      jsOr (data.getField "max_tokens") (.number 2000) := by
  have hr : onRequest data = .obj (spreadObj data.spreadFields
      [("model_name", jsOr (data.getField "model_name") (.str defaultLLM)),
       ("temperature", jsOr (data.getField "temperature") (.number (7 / 10))),
       ("top_p", jsOr (data.getField "top_p") (.number (9 / 10))),
       ("max_tokens", jsOr (data.getField "max_tokens") (.number 2000))]) := by
    unfold onRequest
    exact if_pos h
  refine ⟨?_, ?_, ?_, ?_⟩ <;>
    (rw [hr]; simp only [JSVal.getField, lookupF_spreadObj]; rfl)

/- ===================== Claim theorems ===================== -/

/-- C1: for every empty or whitespace-only input text, `standardize`
rejects the input with `EmptyInput` before calling the embedding provider
— zero provider requests are issued — and likewise the NER page's submit
handler issues no request for blank input. -/
theorem standardize_empty_input : ∀ (embed : Nat → Except StdError (List ℚ))
    (sim : List ℚ → List ℚ → ℚ) (entries : List (Term × List ℚ))
    (topK : Nat) (θ : ℚ) (text : String) (options : JSVal),
    jsTrim text = "" →
    standardizeRun embed sim entries text topK θ = (.error .EmptyInput, 0) ∧
    handleSubmitNER text options = none := by
  intro embed sim entries topK θ text options h
  exact ⟨by simp [standardizeRun, h], by simp [handleSubmitNER, h]⟩

/-- Witness for C1 at the whitespace-only input `"  "`. -/
theorem standardize_empty_input_witness :
    jsTrim "  " = "" ∧
    standardizeRun (fun _ => .ok [1]) simConst [] "  " 5 0 =
      (.error .EmptyInput, 0) ∧
    handleSubmitNER "  " .null = none :=
  ⟨rfl,
   (standardize_empty_input (fun _ => .ok [1]) simConst [] 5 0 "  " .null rfl).1,
   (standardize_empty_input (fun _ => .ok [1]) simConst [] 5 0 "  " .null rfl).2⟩

/-- C2: whenever `standardize` succeeds, the returned sequence has
monotonically non-increasing scores, and every returned candidate's score
is at least `similarityThreshold` — no candidate below the threshold ever
appears. -/
theorem standardize_sorted_threshold :
    ∀ (embed : Nat → Except StdError (List ℚ)) (sim : List ℚ → List ℚ → ℚ)
    (entries : List (Term × List ℚ)) (text : String) (topK : Nat) (θ : ℚ)
    (res : List (Term × ℚ)) (n : Nat),
    standardizeRun embed sim entries text topK θ = (.ok res, n) →
    res.Pairwise (fun a b => b.2 ≤ a.2) ∧ ∀ c ∈ res, θ ≤ c.2 := by
  intro embed sim entries text topK θ res n h
  unfold standardizeRun at h
  by_cases ht : jsTrim text = ""
  · rw [if_pos ht] at h
    exact absurd (congrArg Prod.fst h) (by simp)
  · rw [if_neg ht] at h
    rcases he : retryEmbed embed 0 API_CONFIG_maxRetries with ⟨r, m⟩
    rw [he] at h
    cases r with
    | error e => exact absurd (congrArg Prod.fst h) (by simp)
    | ok v =>
      have hres : res = (searchIndex sim entries v topK).filter
          (fun c => decide (θ ≤ c.2)) :=
        (Except.ok.inj (congrArg Prod.fst h)).symm
      subst hres
      constructor
      · exact ((searchIndex_sorted sim entries v topK).filter _).imp
          (fun hab => rankRel_score_le hab)
      · intro c hc
        exact of_decide_eq_true (List.mem_filter.mp hc).2

/-- Witness for C2: a concrete query over the two-term vocabulary with
threshold 2 returns exactly the one candidate scoring 3. -/
theorem standardize_sorted_threshold_witness :
    standardizeRun (fun _ => .ok [0]) simHead entriesTwo "股市" 2 2 =
      (.ok [(termStock, 3)], 1) ∧
    ([(termStock, (3 : ℚ))]).Pairwise (fun a b => b.2 ≤ a.2) ∧
    (∀ c ∈ [(termStock, (3 : ℚ))], (2 : ℚ) ≤ c.2) := by
  have h : standardizeRun (fun _ => .ok [0]) simHead entriesTwo "股市" 2 2 =
      (.ok [(termStock, 3)], 1) := rfl
  exact ⟨h,
    (standardize_sorted_threshold _ _ _ _ _ _ _ _ h).1,
    (standardize_sorted_threshold _ _ _ _ _ _ _ _ h).2⟩

/-- C3: `API_CONFIG.retry.maxRetries` is 3; the bounded internal retry
never issues more than `fuel + 1` provider requests, so a standardization
issues at most `maxRetries + 1 = 4` requests (no unbounded retry), while a
validation error is surfaced from the very first attempt — one request,
never retried. -/
theorem retry_bounded :
    API_CONFIG_maxRetries = 3 ∧
    (∀ (embed : Nat → Except StdError (List ℚ)) (attempt fuel : Nat),
      (retryEmbed embed attempt fuel).2 ≤ fuel + 1) ∧
    (∀ (embed : Nat → Except StdError (List ℚ)) (sim : List ℚ → List ℚ → ℚ)
      (entries : List (Term × List ℚ)) (text : String) (topK : Nat) (θ : ℚ),
      (standardizeRun embed sim entries text topK θ).2 ≤
        API_CONFIG_maxRetries + 1) ∧
    (∀ (embed : Nat → Except StdError (List ℚ)) (attempt fuel : Nat)
      (e : StdError), embed attempt = .error e → e.isValidation = true →
      retryEmbed embed attempt fuel = (.error e, 1)) ∧
    (∀ (embed : Nat → Except StdError (List ℚ)) (sim : List ℚ → List ℚ → ℚ)
      (entries : List (Term × List ℚ)) (text : String) (topK : Nat) (θ : ℚ)
      (e : StdError), jsTrim text ≠ "" → embed 0 = .error e →
      e.isValidation = true →
      standardizeRun embed sim entries text topK θ = (.error e, 1)) := by
  refine ⟨rfl, fun embed attempt fuel => retryEmbed_count embed fuel attempt,
    ?_, fun embed attempt fuel e he hv =>
      retryEmbed_validation embed attempt fuel e he hv, ?_⟩
  · intro embed sim entries text topK θ
    unfold standardizeRun
    by_cases ht : jsTrim text = ""
    · rw [if_pos ht]
      exact Nat.zero_le _
    · rw [if_neg ht]
      rcases he : retryEmbed embed 0 API_CONFIG_maxRetries with ⟨r, m⟩
      have hm : m ≤ API_CONFIG_maxRetries + 1 := by
        have hc := retryEmbed_count embed API_CONFIG_maxRetries 0
        rw [he] at hc
        exact hc
      cases r <;> simpa using hm
  · intro embed sim entries text topK θ e ht he hv
    unfold standardizeRun
    rw [if_neg ht, retryEmbed_validation embed 0 API_CONFIG_maxRetries e he hv]

/-- Witness for C3: a provider that always fails transiently stays within
the bound and surfaces after exactly 4 requests; a `DimensionMismatch`
validation failure surfaces after a single request. -/
theorem retry_bounded_witness :
    (standardizeRun (fun _ => .error .EmbeddingUnavailable) simConst []
      "查询" 5 0).2 ≤ API_CONFIG_maxRetries + 1 ∧
    standardizeRun (fun _ => .error .DimensionMismatch) simConst []
      "查询" 5 0 = (.error .DimensionMismatch, 1) ∧
    standardizeRun (fun _ => .error .EmbeddingUnavailable) simConst []
      "查询" 5 0 = (.error .EmbeddingUnavailable, 4) :=
  ⟨retry_bounded.2.2.1 (fun _ => .error .EmbeddingUnavailable) simConst []
      "查询" 5 0,
   retry_bounded.2.2.2.2 (fun _ => .error .DimensionMismatch) simConst []
      "查询" 5 0 .DimensionMismatch (by decide) rfl rfl,
   rfl⟩

/-- C4 (counterexample): the reducer performs no key validation — a
`SET_MODEL_OPTIONS` update whose payload carries the unrecognized key
"foo" introduces that key into the configuration state. -/
theorem options_validation_cex :
    ("foo" ∉ recognizedOptionKeys) ∧
    lookupF "foo" ((reducer initialState
      ⟨"SET_MODEL_OPTIONS", .obj [("foo", .str "bar")]⟩).modelOptions) =
      some (.str "bar") ∧
    "foo" ∈ keysOf ((reducer initialState
      ⟨"SET_MODEL_OPTIONS", .obj [("foo", .str "bar")]⟩).modelOptions) :=
  ⟨by decide, rfl, by decide⟩

/-- C4 (amended): the initial configuration enumerates exactly the
recognized keys model, embeddingModel, dbName; an options update whose
payload uses only recognized keys — in particular any
`ModelOptionsPanel.handleChange` edit to a recognized field — keeps every
configuration key recognized; the reducer itself does no validation, so
this holds only for such payloads. -/
theorem options_recognized_keys :
    keysOf initialState.modelOptions = recognizedOptionKeys ∧
    (∀ (s : AppState) (fs : List (String × JSVal)),
      (∀ k ∈ keysOf s.modelOptions, k ∈ recognizedOptionKeys) →
      (∀ k ∈ keysOf fs, k ∈ recognizedOptionKeys) →
      ∀ k ∈ keysOf ((reducer s
        ⟨"SET_MODEL_OPTIONS", .obj fs⟩).modelOptions),
        k ∈ recognizedOptionKeys) ∧
    (∀ (s : AppState) (name : String) (value : JSVal),
      name ∈ recognizedOptionKeys →
      (∀ k ∈ keysOf s.modelOptions, k ∈ recognizedOptionKeys) →
      ∀ k ∈ keysOf ((reducer s (handleChange name value)).modelOptions),
        k ∈ recognizedOptionKeys) := by
  refine ⟨rfl, ?_, ?_⟩
  · intro s fs hs hf k hk
    have he : (reducer s ⟨"SET_MODEL_OPTIONS", .obj fs⟩).modelOptions =
        spreadObj s.modelOptions fs := rfl
    rw [he] at hk
    rcases keysOf_spreadObj_sub _ _ _ hk with h | h
    · exact hs k h
    · exact hf k h
  · intro s name value hn hs k hk
    have he : (reducer s (handleChange name value)).modelOptions =
        spreadObj s.modelOptions [(name, value)] := rfl
    rw [he] at hk
    rcases keysOf_spreadObj_sub _ _ _ hk with h | h
    · exact hs k h
    · simp [keysOf] at h
      exact h ▸ hn

/-- Witness for the amended C4: a panel edit of the recognized "model"
field keeps the key set within the recognized keys. -/
theorem options_recognized_keys_witness :
    "model" ∈ keysOf ((reducer initialState
      (handleChange "model" (.str "glm-4-flash"))).modelOptions) ∧
    "model" ∈ recognizedOptionKeys :=
  ⟨by decide,
   options_recognized_keys.2.2 initialState "model" (.str "glm-4-flash")
     (by decide) (by decide) "model" (by decide)⟩

/-- C5: the client is created with the configured 30000 ms timeout; every
service request issued through it carries that timeout; and a call under
this bounded timeout resolves within the bound — when no response ever
arrives it fails at the timeout (surfacing as the interceptor's
network-unavailability rejection) instead of hanging. -/
theorem bounded_timeout :
    API_CONFIG_timeout = 30000 ∧
    (∀ (text : String) (options : JSVal),
      (stdService_standardize text options).timeout = API_CONFIG_timeout ∧
      (nerService_recognize text options).timeout = API_CONFIG_timeout ∧
      (abbrService_expand text options).timeout = API_CONFIG_timeout ∧
      (corrService_correct text options).timeout = API_CONFIG_timeout ∧
      (genService_generate text options).timeout = API_CONFIG_timeout) ∧
    (∀ arrival, (requestWithTimeout API_CONFIG_timeout arrival).time ≤
      API_CONFIG_timeout) ∧
    requestWithTimeout API_CONFIG_timeout none =
      .timedOut API_CONFIG_timeout ∧
    onAxiosError ⟨none, true, "timeout of 30000ms exceeded"⟩ =
      .str "网络连接失败，请检查网络设置" := by
  refine ⟨rfl, fun text options => ⟨rfl, rfl, rfl, rfl, rfl⟩,
    fun arrival => ?_, rfl, rfl⟩
  cases arrival with
  | none => simp [requestWithTimeout, ReqOutcome.time]
  | some a =>
    by_cases h : a ≤ API_CONFIG_timeout
    · simp [requestWithTimeout, h, ReqOutcome.time]
    · simp [requestWithTimeout, h, ReqOutcome.time]

/-- C6: for a fixed index state with no term indexed twice, similarity
search is deterministic — the same query yields the same result, the
result is strictly ordered by descending score with ties broken by
ascending `term_id`, and any reordering of it satisfying that strict
order is the result itself (the ordering is unique). -/
theorem search_deterministic : ∀ (sim : List ℚ → List ℚ → ℚ)
    (entries : List (Term × List ℚ)) (q : List ℚ) (k : Nat),
    (entries.map (fun e => e.1.term_id)).Nodup →
    searchIndex sim entries q k = searchIndex sim entries q k ∧
    (searchIndex sim entries q k).Pairwise rankLT ∧
    (∀ l', l'.Perm (searchIndex sim entries q k) → l'.Pairwise rankLT →
      l' = searchIndex sim entries q k) := by
  intro sim entries q k hnd
  have hids := searchIndex_ids_distinct sim entries q k hnd
  have hsor := searchIndex_sorted sim entries q k
  have hstrict : (searchIndex sim entries q k).Pairwise rankLT :=
    (hsor.and hids).imp (fun h => rankRel_ne_imp_lt h.1 h.2)
  exact ⟨rfl, hstrict,
    fun l' hperm hl' => List.eq_of_perm_of_sorted hperm hl' hstrict⟩

/-- Witness for C6 on the two-term index: the search result is the
strictly ranked list [(股票, 3), (债券, 1)]. -/
theorem search_deterministic_witness :
    ([(termStock, (3 : ℚ)), (termBond, 1)]).Pairwise rankLT ∧
    searchIndex simHead entriesTwo [0] 2 = [(termStock, 3), (termBond, 1)] := by
  have he : searchIndex simHead entriesTwo [0] 2 =
      [(termStock, 3), (termBond, 1)] := rfl
  exact ⟨he ▸ (search_deterministic simHead entriesTwo [0] 2 (by decide)).2.1,
    he⟩

/-- C7: batch standardization returns exactly one result per input, in
input order, and each item's result depends only on that item — so an
embedding failure on one item is that item's failure marker while every
other item keeps its normal ranked result. -/
theorem batch_partial_failure : ∀ (embed : String → Except StdError (List ℚ))
    (sim : List ℚ → List ℚ → ℚ) (entries : List (Term × List ℚ))
    (texts : List String) (topK : Nat) (θ : ℚ),
    (batchStandardize embed sim entries texts topK θ).length = texts.length ∧
    (∀ (i : Nat) (t : String), texts[i]? = some t →
      (batchStandardize embed sim entries texts topK θ)[i]? =
        some (standardize (fun _ => embed t) sim entries t topK θ)) := by
  intro embed sim entries texts topK θ
  refine ⟨by simp [batchStandardize], fun i t ht => ?_⟩
  unfold batchStandardize
  rw [List.getElem?_map, ht]
  rfl

/-- Witness for C7, the spec's §8 scenario: three inputs with the provider
failing on the second — the batch has length 3, item 2 carries the
`EmbeddingUnavailable` marker, items 1 and 3 carry normal ranked
results. -/
theorem batch_partial_failure_witness :
    (batchStandardize embedFailsOn2 simConst entriesTwo
      ["甲", "乙", "丙"] 5 1).length = 3 ∧
    (batchStandardize embedFailsOn2 simConst entriesTwo
      ["甲", "乙", "丙"] 5 1)[1]? = some (.error .EmbeddingUnavailable) ∧
    (batchStandardize embedFailsOn2 simConst entriesTwo
      ["甲", "乙", "丙"] 5 1)[0]? =
      some (.ok [(termStock, 1), (termBond, 1)]) ∧
    (batchStandardize embedFailsOn2 simConst entriesTwo
      ["甲", "乙", "丙"] 5 1)[2]? =
      some (.ok [(termStock, 1), (termBond, 1)]) := by
  have h := batch_partial_failure embedFailsOn2 simConst entriesTwo
    ["甲", "乙", "丙"] 5 1
  refine ⟨h.1, ?_, ?_, ?_⟩
  · rw [h.2 1 "乙" rfl]
    rfl
  · rw [h.2 0 "甲" rfl]
    rfl
  · rw [h.2 2 "丙" rfl]
    rfl

/-- C8: for every HTTP response, if the body carries a truthy `error`
field the fulfilled interceptor rejects with that error — regardless of
the (success) status — and otherwise it resolves to the body itself, so a
resolved value never carries a truthy `error` field. -/
theorem response_error_envelope : ∀ r : AxiosResponse,
    (onResponseFulfilled r = .error (r.data.getField "error") ↔
      (r.data.getField "error").truthy = true) ∧
    (onResponseFulfilled r = .ok r.data ↔
      (r.data.getField "error").truthy = false) ∧
    (∀ v, onResponseFulfilled r = .ok v →
      (v.getField "error").truthy = false) := by
  intro r
  cases ht : (r.data.getField "error").truthy with
  | true =>
    have hd : r.data.truthy = true := getField_truthy_imp _ _ ht
    have hcond : (jsAnd r.data (r.data.getField "error")).truthy = true := by
      unfold jsAnd
      rw [if_pos hd]
      exact ht
    have heq : onResponseFulfilled r = .error (r.data.getField "error") := by
      unfold onResponseFulfilled
      rw [if_pos hcond]
    refine ⟨⟨fun _ => rfl, fun _ => heq⟩, ⟨fun h => ?_, fun h => ?_⟩,
      fun v hv => ?_⟩
    · rw [heq] at h
      exact Except.noConfusion h
    · exact Bool.noConfusion h
    · rw [heq] at hv
      exact Except.noConfusion hv
  | false =>
    have hcond : (jsAnd r.data (r.data.getField "error")).truthy = false := by
      unfold jsAnd
      cases hd : r.data.truthy
      · simp [hd]
      · simp [ht]
    have heq : onResponseFulfilled r = .ok r.data := by
      unfold onResponseFulfilled
      rw [if_neg (by simp [hcond])]
    refine ⟨⟨fun h => ?_, fun h => ?_⟩, ⟨fun _ => rfl, fun _ => heq⟩,
      fun v hv => ?_⟩
    · rw [heq] at h
      exact Except.noConfusion h
    · exact Bool.noConfusion h
    · rw [heq] at hv
      exact (Except.ok.inj hv) ▸ ht

/-- Witness for C8: a 200 body carrying a truthy error field is rejected
with it, and a clean 200 body resolves to itself, which carries no truthy
error field. -/
theorem response_error_envelope_witness :
    onResponseFulfilled ⟨200, .obj [("error", .str "提取失败")]⟩ =
      .error (.str "提取失败") ∧
    onResponseFulfilled ⟨200, .obj [("result", .str "ok")]⟩ =
      .ok (.obj [("result", .str "ok")]) ∧
    ((JSVal.obj [("result", .str "ok")]).getField "error").truthy = false :=
  ⟨(response_error_envelope ⟨200, .obj [("error", .str "提取失败")]⟩).1.mpr rfl,
   (response_error_envelope ⟨200, .obj [("result", .str "ok")]⟩).2.1.mpr rfl,
   (response_error_envelope ⟨200, .obj [("result", .str "ok")]⟩).2.2 _
     ((response_error_envelope ⟨200, .obj [("result", .str "ok")]⟩).2.1.mpr rfl)⟩

/-- C9 (counterexample): the empty string is a non-null data payload, yet
the interceptor adds no defaults to it — its falsy `model_name` is not
filled with the default. -/
theorem request_defaults_cex :
    (JSVal.str "" ≠ JSVal.null) ∧
    ((JSVal.str "").getField "model_name").truthy = false ∧
    onRequest (.str "") = .str "" ∧
    (onRequest (.str "")).getField "model_name" = .undefined ∧
    JSVal.undefined ≠ .str defaultLLM :=
  ⟨fun h => JSVal.noConfusion h, rfl, rfl, rfl,
   fun h => JSVal.noConfusion h⟩

/-- C9 (amended): for every request whose data payload is truthy, each
falsy `model_name`, `temperature`, `top_p`, `max_tokens` field — in
particular an explicit 0 — is filled with the defaults glm-4-plus, 0.7,
0.9, 2000, and each truthy field is kept; a falsy payload (none supplied,
but also the non-null empty string) is sent unchanged. -/
theorem request_defaults : ∀ data : JSVal,
    (data.truthy = true →
      (((data.getField "model_name").truthy = false →
        (onRequest data).getField "model_name" = .str defaultLLM) ∧
       ((data.getField "model_name").truthy = true →
        (onRequest data).getField "model_name" = data.getField "model_name")) ∧
      (((data.getField "temperature").truthy = false →
        (onRequest data).getField "temperature" = .number (7 / 10)) ∧
       ((data.getField "temperature").truthy = true →
        (onRequest data).getField "temperature" =
          data.getField "temperature")) ∧
      (((data.getField "top_p").truthy = false →
        (onRequest data).getField "top_p" = .number (9 / 10)) ∧
       ((data.getField "top_p").truthy = true →
        (onRequest data).getField "top_p" = data.getField "top_p")) ∧
      (((data.getField "max_tokens").truthy = false →
        (onRequest data).getField "max_tokens" = .number 2000) ∧
       ((data.getField "max_tokens").truthy = true →
        (onRequest data).getField "max_tokens" =
          data.getField "max_tokens"))) ∧
    (data.truthy = false → onRequest data = data) := by
  intro data
  constructor
  · intro h
    obtain ⟨h1, h2, h3, h4⟩ := onRequest_getField data h
    refine ⟨⟨fun hf => ?_, fun hf => ?_⟩, ⟨fun hf => ?_, fun hf => ?_⟩,
      ⟨fun hf => ?_, fun hf => ?_⟩, ⟨fun hf => ?_, fun hf => ?_⟩⟩ <;>
      simp [h1, h2, h3, h4, jsOr, hf]
  · intro h
    unfold onRequest
    rw [if_neg (by simp [h])]

/-- Witness for the amended C9: an explicit `temperature: 0` is replaced
by the default 0.7, and a null payload is sent unchanged. -/
theorem request_defaults_witness :
    (onRequest (.obj [("text", .str "hi"), ("temperature", .number 0)])
      ).getField "temperature" = .number (7 / 10) ∧
    onRequest .null = .null :=
  ⟨((request_defaults
      (.obj [("text", .str "hi"), ("temperature", .number 0)])).1
      rfl).2.1.1 (by decide),
   (request_defaults .null).2 rfl⟩

/-- C10: the application-state reducer changes only the field the action
targets — `SET_LOADING`, `SET_ERROR` and `CLEAR_ERROR` leave
`modelOptions` unchanged, `SET_MODEL_OPTIONS` leaves `loading` and
`error` unchanged, and any unrecognized action type returns the state
unchanged. -/
theorem reducer_frame : ∀ (s : AppState) (p : JSVal),
    (reducer s ⟨"SET_LOADING", p⟩).modelOptions = s.modelOptions ∧
    (reducer s ⟨"SET_ERROR", p⟩).modelOptions = s.modelOptions ∧
    (reducer s ⟨"CLEAR_ERROR", p⟩).modelOptions = s.modelOptions ∧
    (reducer s ⟨"SET_MODEL_OPTIONS", p⟩).loading = s.loading ∧
    (reducer s ⟨"SET_MODEL_OPTIONS", p⟩).error = s.error ∧
    (∀ t : String, t ≠ "SET_MODEL_OPTIONS" → t ≠ "SET_LOADING" →
      t ≠ "SET_ERROR" → t ≠ "CLEAR_ERROR" → reducer s ⟨t, p⟩ = s) := by
  intro s p
  refine ⟨rfl, rfl, rfl, rfl, rfl, fun t h1 h2 h3 h4 => ?_⟩
  simp [reducer, h1, h2, h3, h4]

/-- Witness for C10: a loading toggle keeps the options, and an unknown
action type is a no-op. -/
theorem reducer_frame_witness :
    (reducer initialState ⟨"SET_LOADING", .boolean true⟩).modelOptions =
      initialState.modelOptions ∧
    reducer initialState ⟨"RESET", .null⟩ = initialState :=
  ⟨(reducer_frame initialState (.boolean true)).1,
   (reducer_frame initialState .null).2.2.2.2.2 "RESET" (by decide)
     (by decide) (by decide) (by decide)⟩
